import Mathlib

/-!
Shallow embedding of the request-execution core of the
`code_structure_independent_components` repository:

* `src/src/base/abstract_api_collector.py` — `AbstractAPICollector`
  (`_configure_session`, `_make_request`);
* `src/src/base/abstract_scraper.py` — `AbstractScraper`
  (`_fetch_page`, `_parse_html`);
* `src/src/utils/logging.py` — `configure_logger`, `log_and_trace`.

Conventions of the embedding:

* wall-clock instants are natural numbers of centiseconds, so that the
  Python format `f"{elapsed:.2f}"` applied to an exact centisecond value
  is mirrored by the string function `fmt2`;
* the network is external input: each call site takes the outcome that
  `requests` produced for that one call (`NetOutcome`), and likewise the
  HTML engine result is a `EngineOutcome` parameter of `parse_html`;
* Python truthiness is modelled explicitly: an `Optional[str]` is truthy
  iff it is present and non-empty (`strTruthy`), and a
  `requests.Response` is truthy iff `response.ok`, i.e. iff
  `raise_for_status` would not raise (`Response.ok`);
* log output is a list of structured events (`LogEvent`), in emission
  order: `errorLine` for `logger.error(...)` calls and `traceLine` for
  the informational line built by `log_and_trace`.
-/

/-- Truthiness of a Python `Optional[str]`: `None` and `""` are falsy. -/
def strTruthy : Option String → Bool
  | none => false
  | some s => !s.isEmpty

/-- Model of a `requests.Session` restricted to the fields the collector
and scraper configure: extra headers, optional basic-auth pair, proxies. -/
structure Session where
  headers : List (String × String)
  auth : Option (String × String)
  proxies : List (String × String)
deriving DecidableEq, Repr

/-- Embedding of `AbstractAPICollector._configure_session`: starts from a
fresh session, adds the bearer header when `api_key` is truthy, and sets
basic auth when `username` **and** `password` are both truthy.  The two
`if` statements are independent, exactly as in the source. -/
def configure_session (api_key username password : Option String) : Session :=
  let headers := if strTruthy api_key
    then [("Authorization", "Bearer " ++ api_key.getD "")]
    else []
  let auth := if strTruthy username && strTruthy password
    then some (username.getD "", password.getD "")
    else none
  { headers := headers, auth := auth, proxies := [] }

/-- Outcome of deserializing a response body via `response.json()`:
either a parsed key/value mapping or the raised decode error's message. -/
inductive JsonOutcome where
  | ok (d : List (String × String))
  | raised (msg : String)
deriving DecidableEq, Repr

/-- Model of a `requests.Response`: HTTP status code, raw text body, and
the outcome `response.json()` would produce on this body. -/
structure Response where
  status_code : Nat
  text : String
  json : JsonOutcome
deriving DecidableEq, Repr

/-- Truthiness of a `requests.Response` (`Response.__bool__` returns
`self.ok`): `ok` is `False` exactly when `raise_for_status` would raise,
i.e. for status codes in `[400, 599]`. -/
def Response.ok (r : Response) : Bool :=
  !(decide (400 ≤ r.status_code ∧ r.status_code ≤ 599))

/-- Message of the `requests.HTTPError` that `raise_for_status` raises:
client error for 4xx, server error for 5xx (url detail elided). -/
def http_error_msg (r : Response) : String :=
  if r.status_code < 500
    then toString r.status_code ++ " Client Error for url"
    else toString r.status_code ++ " Server Error for url"

/-- Outcome of one `session.request` / `session.get` call: either a
response came back, or a `requests.RequestException` was raised below
the HTTP layer (DNS, connection refused, timeout). -/
inductive NetOutcome where
  | response (r : Response)
  | requestException (msg : String)
deriving DecidableEq, Repr

/-- Classified failure kinds raised out of `_make_request` /
`_fetch_page`, each carrying the exception message. -/
inductive Failure where
  | httpError (status : Nat) (msg : String)
  | requestError (msg : String)
  | unexpectedError (msg : String)
deriving DecidableEq, Repr

/-- Message carried by a classified failure. -/
def Failure.message : Failure → String
  | .httpError _ m => m
  | .requestError m => m
  | .unexpectedError m => m

/-- Rendering of a number of centiseconds the way Python's `:.2f`
renders the same exact value in seconds. -/
def fmt2 (centis : Nat) : String :=
  toString (centis / 100) ++ "." ++
    (if centis % 100 < 10 then "0" else "") ++ toString (centis % 100)

/-- Structured content of the informational line emitted by
`log_and_trace`: operation name, elapsed centiseconds, and the status
code when the response argument was truthy. -/
structure TraceLine where
  method_name : String
  elapsed_time : Nat
  status : Option Nat
deriving DecidableEq, Repr

/-- Text of the informational line, following the two f-strings in
`log_and_trace`. -/
def TraceLine.render (t : TraceLine) : String :=
  match t.status with
  | some c => t.method_name ++ " completed in " ++ fmt2 t.elapsed_time ++
      "s with status code " ++ toString c
  | none => t.method_name ++ " completed in " ++ fmt2 t.elapsed_time ++ "s"

/-- Embedding of `log_and_trace(logger, method_name, start_time, response)`:
computes `elapsed_time = time.time() - start_time` and branches on
`if response:` — which is Python truthiness, so a supplied response with
an error status takes the no-status branch. -/
def log_and_trace (method_name : String) (start_time now : Nat)
    (response : Option Response) : TraceLine :=
  let elapsed_time := now - start_time
  match response with
  | some r =>
      if r.ok
        then { method_name := method_name, elapsed_time := elapsed_time,
               status := some r.status_code }
        else { method_name := method_name, elapsed_time := elapsed_time,
               status := none }
  | none => { method_name := method_name, elapsed_time := elapsed_time,
              status := none }

/-- One emitted log event: an error-level line from `logger.error(...)`
or the informational trace line from `log_and_trace`. -/
inductive LogEvent where
  | errorLine (text : String)
  | traceLine (t : TraceLine)
deriving DecidableEq, Repr

/-- Predicate selecting instrumentation (trace) events. -/
def LogEvent.isTrace : LogEvent → Bool
  | .traceLine _ => true
  | .errorLine _ => false

/-- Predicate selecting error-level events. -/
def LogEvent.isError : LogEvent → Bool
  | .errorLine _ => true
  | .traceLine _ => false

/-- The outbound HTTP call as issued: method, joined URL, query
parameters, optional structured body, and the timeout argument passed to
`requests` (`none` when no timeout keyword is given). -/
structure HttpCall where
  method : String
  url : String
  params : List (String × String)
  body : Option (List (String × String))
  timeout : Option Nat
deriving DecidableEq, Repr

/-- The call `_make_request` issues: `f"{self.base_url}/{endpoint}"` with
no timeout keyword. -/
def request_call (base_url method endpoint : String)
    (params : List (String × String))
    (data : Option (List (String × String))) : HttpCall :=
  { method := method, url := base_url ++ "/" ++ endpoint,
    params := params, body := data, timeout := none }

/-- Embedding of `AbstractAPICollector._make_request`.  Returns the
issued call, the emitted log events in order, and the result: the parsed
body on success or the classified failure that propagates.  The `net`
argument is the outcome `session.request` produced for this call. -/
def make_request (base_url method endpoint : String)
    (params : List (String × String))
    (data : Option (List (String × String)))
    (net : NetOutcome) (start_time now : Nat) :
    HttpCall × List LogEvent × Except Failure (List (String × String)) :=
  let call := request_call base_url method endpoint params data
  match net with
  | .requestException m =>
      (call, [LogEvent.errorLine ("Request error occurred: " ++ m)],
       Except.error (Failure.requestError m))
  | .response r =>
      if 400 ≤ r.status_code ∧ r.status_code ≤ 599 then
        (call,
         [LogEvent.errorLine ("HTTP error occurred: " ++ http_error_msg r)],
         Except.error (Failure.httpError r.status_code (http_error_msg r)))
      else
        let t := log_and_trace "_make_request" start_time now (some r)
        match r.json with
        | .ok d => (call, [LogEvent.traceLine t], Except.ok d)
        | .raised m =>
            (call,
             [LogEvent.traceLine t,
              LogEvent.errorLine ("Unexpected error: " ++ m)],
             Except.error (Failure.unexpectedError m))

/-- The call `_fetch_page` issues: a GET on `f"{self.base_url}/{endpoint}"`
with `timeout=10`. -/
def fetch_call (base_url endpoint : String)
    (params : List (String × String)) : HttpCall :=
  { method := "GET", url := base_url ++ "/" ++ endpoint,
    params := params, body := none, timeout := some 10 }

/-- Embedding of `AbstractScraper._fetch_page`.  Same shape as
`make_request` but returns the raw text body and has no catch-all
branch (only `HTTPError` and `RequestException` are caught). -/
def fetch_page (base_url endpoint : String)
    (params : List (String × String))
    (net : NetOutcome) (start_time now : Nat) :
    HttpCall × List LogEvent × Except Failure String :=
  let call := fetch_call base_url endpoint params
  match net with
  | .requestException m =>
      (call,
       [LogEvent.errorLine ("Request error occurred while fetching page: " ++ m)],
       Except.error (Failure.requestError m))
  | .response r =>
      if 400 ≤ r.status_code ∧ r.status_code ≤ 599 then
        (call,
         [LogEvent.errorLine
            ("HTTP error occurred while fetching page: " ++ http_error_msg r)],
         Except.error (Failure.httpError r.status_code (http_error_msg r)))
      else
        (call,
         [LogEvent.traceLine (log_and_trace "_fetch_page" start_time now (some r))],
         Except.ok r.text)

/-- Model of the navigable tree `BeautifulSoup` returns. -/
structure Soup where
  source : String
deriving DecidableEq, Repr

/-- Outcome of the call `BeautifulSoup(html_content, "html.parser")`:
the tree, or the message of the exception the engine raised. -/
inductive EngineOutcome where
  | tree (s : Soup)
  | raised (msg : String)
deriving DecidableEq, Repr

/-- Failure raised out of `_parse_html`: the `ValueError` wrapping the
engine's message. -/
inductive ParseFailure where
  | valueError (msg : String)
deriving DecidableEq, Repr

/-- Embedding of `AbstractScraper._parse_html`: returns the emitted log
events and the result.  When the engine raises, the method logs an
error line and raises `ValueError(f"Invalid HTML content: {err}")`. -/
def parse_html (engine : EngineOutcome) :
    List LogEvent × Except ParseFailure Soup :=
  match engine with
  | .tree s => ([], Except.ok s)
  | .raised m =>
      ([LogEvent.errorLine ("Error while parsing HTML: " ++ m)],
       Except.error (ParseFailure.valueError ("Invalid HTML content: " ++ m)))

/-- Model of a `logging.Handler` restricted to its formatter string. -/
structure Handler where
  format : String
deriving DecidableEq, Repr

/-- Model of a `logging.Logger`: numeric level and attached handlers. -/
structure Logger where
  level : Nat
  handlers : List Handler
deriving DecidableEq, Repr

/-- Numeric value of `logging.INFO`. -/
def INFO : Nat := 20

/-- Fresh process-wide logger registry: `logging.getLogger(name)` for a
name never configured yields a logger at default level with no
handlers. -/
def freshRegistry : String → Logger :=
  fun _ => { level := 30, handlers := [] }

/-- Embedding of `configure_logger(name)` acting on the process-wide
registry: fetches the logger of that name, sets its level to INFO, and
unconditionally appends one more stream handler with the fixed
formatter.  Returns the updated registry. -/
def configure_logger (reg : String → Logger) (name : String) :
    String → Logger :=
  fun n =>
    if n = name then
      { level := INFO,
        handlers := (reg name).handlers ++
          [{ format := "%(asctime)s - %(name)s - %(levelname)s - %(message)s" }] }
    else reg n

/-- Emission of one record through a logger: each attached handler
writes the line once, so the line appears once per handler. -/
def emit (l : Logger) (line : String) : List String :=
  l.handlers.map (fun _ => line)

/-! ## Theorems for the claims -/

/-- Claim C1 (counterexample): constructing with both a token and a
username/password pair does attach basic auth to the session — the two
`if` statements of `_configure_session` are independent, so the claim
that only the bearer header is attached is false. -/
theorem C1_counterexample :
    (configure_session (some "tok") (some "user") (some "pass")).auth =
      some ("user", "pass") := by
  decide

/-- Claim C1 (amended): constructing with a truthy token and a truthy
username/password pair attaches BOTH authentication modes to the
session: the bearer token header and the basic-auth pair. -/
theorem C1_both_modes_attached (k u p : String)
    (hk : k ≠ "") (hu : u ≠ "") (hp : p ≠ "") :
    (configure_session (some k) (some u) (some p)).headers =
      [("Authorization", "Bearer " ++ k)] ∧
    (configure_session (some k) (some u) (some p)).auth = some (u, p) := by
  have hk2 : k.isEmpty = false := by
    rw [Bool.eq_false_iff]
    simpa [String.isEmpty_iff] using hk
  have hu2 : u.isEmpty = false := by
    rw [Bool.eq_false_iff]
    simpa [String.isEmpty_iff] using hu
  have hp2 : p.isEmpty = false := by
    rw [Bool.eq_false_iff]
    simpa [String.isEmpty_iff] using hp
  simp [configure_session, strTruthy, hk2, hu2, hp2]

/-- Claim C1 (witness for the amended theorem). -/
theorem C1_both_modes_attached_witness :
    (configure_session (some "tok") (some "user") (some "pass")).headers =
      [("Authorization", "Bearer " ++ "tok")] ∧
    (configure_session (some "tok") (some "user") (some "pass")).auth =
      some ("user", "pass") :=
  C1_both_modes_attached "tok" "user" "pass"
    (by decide) (by decide) (by decide)

/-- Claim C8: a username without a password, or a password without a
username, leaves basic auth unattached, and session construction always
succeeds (the embedding is a total function). -/
theorem C8_partial_credentials_inert (api_key : Option String) (u p : String) :
    (configure_session api_key (some u) none).auth = none ∧
    (configure_session api_key none (some p)).auth = none := by
  simp [configure_session, strTruthy]

/-- Claim C3 (counterexample): on a parse failure `_parse_html` does emit
log output of its own — one error-level line — so the claim that it
never logs is false. -/
theorem C3_counterexample :
    (parse_html (EngineOutcome.raised "bad markup")).1 =
      [LogEvent.errorLine "Error while parsing HTML: bad markup"] := by
  decide

/-- Claim C3 (amended): `_parse_html` performs no network access (its
result depends only on the engine outcome) and emits no log output on
success; on a parse failure it emits exactly one error-level line and
raises a `ValueError` wrapping the engine's message. -/
theorem C3_parse_html_effects (s : Soup) (m : String) :
    parse_html (EngineOutcome.tree s) = ([], Except.ok s) ∧
    parse_html (EngineOutcome.raised m) =
      ([LogEvent.errorLine ("Error while parsing HTML: " ++ m)],
       Except.error (ParseFailure.valueError ("Invalid HTML content: " ++ m))) :=
  ⟨rfl, rfl⟩

/-- Claim C6: `_make_request` issues its call with no timeout argument,
while `_fetch_page` issues its GET with a fixed timeout of 10 seconds —
the only timeout at either of the two request-issuing call sites. -/
theorem C6_timeout_asymmetry (base method endpoint : String)
    (params : List (String × String)) (data : Option (List (String × String)))
    (net : NetOutcome) (s n : Nat) :
    (make_request base method endpoint params data net s n).1.timeout = none ∧
    (fetch_page base endpoint params net s n).1.timeout = some 10 := by
  constructor
  · cases net with
    | requestException m => rfl
    | response r =>
        simp only [make_request]
        split
        · rfl
        · split <;> rfl
  · cases net with
    | requestException m => rfl
    | response r =>
        simp only [fetch_page]
        split <;> rfl

/-- Claim C9: each call to `configure_logger` for a name appends one
more handler to that process-wide logger, so after `k` calls the logger
holds `k` handlers and a subsequent record is emitted `k` times. -/
theorem C9_handler_accumulation (name line : String) (k : Nat) :
    (((fun reg => configure_logger reg name)^[k] freshRegistry) name).handlers.length = k ∧
    (emit (((fun reg => configure_logger reg name)^[k] freshRegistry) name) line).length = k := by
  have h : ∀ j : Nat,
      (((fun reg => configure_logger reg name)^[j] freshRegistry) name).handlers.length = j := by
    intro j
    induction j with
    | zero => simp [freshRegistry]
    | succ j ih =>
        rw [Function.iterate_succ_apply']
        simp [configure_logger, ih]
  exact ⟨h k, by simp [emit, h k]⟩

/-- Claim C2 (counterexample): a transport failure inside `_make_request`
raises a classified failure but records NO instrumentation event — only
the error line — so the claim that every call records exactly one
instrumentation event is false. -/
theorem C2_counterexample :
    (make_request "https://api.example.com" "GET" "users/1" [] none
        (NetOutcome.requestException "connection refused") 0 7).2.1.filter
        LogEvent.isTrace = [] ∧
    (make_request "https://api.example.com" "GET" "users/1" [] none
        (NetOutcome.requestException "connection refused") 0 7).2.2 =
      Except.error (Failure.requestError "connection refused") := by
  constructor <;> rfl

/-- Claim C2 (amended): `_make_request` records exactly one
instrumentation event — the `log_and_trace` line with elapsed time,
operation name and status code — precisely when the response's status
passed validation (also when the body then fails to parse); on an HTTP
error status or a transport failure it records none, only the error
log line. -/
theorem C2_trace_only_on_ok_status (base method endpoint : String)
    (params : List (String × String)) (data : Option (List (String × String)))
    (s n : Nat) :
    (∀ r : Response,
      (make_request base method endpoint params data
          (NetOutcome.response r) s n).2.1.filter LogEvent.isTrace =
        (if 400 ≤ r.status_code ∧ r.status_code ≤ 599 then []
         else [LogEvent.traceLine (log_and_trace "_make_request" s n (some r))])) ∧
    (∀ m : String,
      (make_request base method endpoint params data
          (NetOutcome.requestException m) s n).2.1.filter LogEvent.isTrace = []) := by
  constructor
  · intro r
    simp only [make_request]
    split
    · simp [List.filter, LogEvent.isTrace]
    · split <;> simp [List.filter, LogEvent.isTrace]
  · intro m
    rfl

/-- Claim C4: every status code in `[400, 599]` makes both
`_make_request` and `_fetch_page` raise the `HTTPError` failure; every
status code in `[200, 399]` with a valid body makes them return
successfully. -/
theorem C4_status_classification (base method endpoint : String)
    (params : List (String × String)) (data : Option (List (String × String)))
    (s n : Nat) (r : Response) :
    (400 ≤ r.status_code ∧ r.status_code ≤ 599 →
      (make_request base method endpoint params data
          (NetOutcome.response r) s n).2.2 =
        Except.error (Failure.httpError r.status_code (http_error_msg r)) ∧
      (fetch_page base endpoint params (NetOutcome.response r) s n).2.2 =
        Except.error (Failure.httpError r.status_code (http_error_msg r))) ∧
    (200 ≤ r.status_code ∧ r.status_code ≤ 399 →
      (∀ d, r.json = JsonOutcome.ok d →
        (make_request base method endpoint params data
            (NetOutcome.response r) s n).2.2 = Except.ok d) ∧
      (fetch_page base endpoint params (NetOutcome.response r) s n).2.2 =
        Except.ok r.text) := by
  constructor
  · intro h
    constructor <;> simp [make_request, fetch_page, h]
  · intro h
    have hrange : ¬(400 ≤ r.status_code ∧ r.status_code ≤ 599) := by omega
    constructor
    · intro d hd
      simp [make_request, hrange, hd]
    · simp [fetch_page, hrange]

/-- Claim C4 (witness): a 404 response raises the `HTTPError` failure
and a 200 response with a valid body returns it. -/
theorem C4_status_classification_witness :
    (make_request "b" "GET" "e" [] none
        (NetOutcome.response
          { status_code := 404, text := "", json := JsonOutcome.raised "x" })
        0 5).2.2 =
      Except.error (Failure.httpError 404 (http_error_msg
        { status_code := 404, text := "", json := JsonOutcome.raised "x" })) ∧
    (make_request "b" "GET" "e" [] none
        (NetOutcome.response
          { status_code := 200, text := "ok",
            json := JsonOutcome.ok [("id", "1")] })
        0 5).2.2 =
      Except.ok [("id", "1")] := by
  constructor
  · exact ((C4_status_classification "b" "GET" "e" [] none 0 5
      { status_code := 404, text := "", json := JsonOutcome.raised "x" }).1
      (by decide)).1
  · exact ((C4_status_classification "b" "GET" "e" [] none 0 5
      { status_code := 200, text := "ok",
        json := JsonOutcome.ok [("id", "1")] }).2
      (by decide)).1 [("id", "1")] rfl

/-- Claim C5: every classified failure raised inside `_make_request` or
`_fetch_page` comes with exactly one error-level log line, whose text is
a fixed prefix followed by the failure's exception message, emitted
before the failure propagates; the classified failure itself reaches the
caller unchanged in kind, with no retry, fallback value or partial
result. -/
theorem C5_failure_logged_once (base method endpoint : String)
    (params : List (String × String)) (data : Option (List (String × String)))
    (s n : Nat) :
    (∀ m,
      (make_request base method endpoint params data
          (NetOutcome.requestException m) s n).2.1.filter LogEvent.isError =
        [LogEvent.errorLine
          ("Request error occurred: " ++ (Failure.requestError m).message)] ∧
      (make_request base method endpoint params data
          (NetOutcome.requestException m) s n).2.2 =
        Except.error (Failure.requestError m)) ∧
    (∀ r : Response, 400 ≤ r.status_code ∧ r.status_code ≤ 599 →
      (make_request base method endpoint params data
          (NetOutcome.response r) s n).2.1.filter LogEvent.isError =
        [LogEvent.errorLine ("HTTP error occurred: " ++
          (Failure.httpError r.status_code (http_error_msg r)).message)] ∧
      (make_request base method endpoint params data
          (NetOutcome.response r) s n).2.2 =
        Except.error (Failure.httpError r.status_code (http_error_msg r))) ∧
    (∀ r : Response, ∀ m, ¬(400 ≤ r.status_code ∧ r.status_code ≤ 599) →
      r.json = JsonOutcome.raised m →
      (make_request base method endpoint params data
          (NetOutcome.response r) s n).2.1.filter LogEvent.isError =
        [LogEvent.errorLine
          ("Unexpected error: " ++ (Failure.unexpectedError m).message)] ∧
      (make_request base method endpoint params data
          (NetOutcome.response r) s n).2.2 =
        Except.error (Failure.unexpectedError m)) ∧
    (∀ m,
      (fetch_page base endpoint params
          (NetOutcome.requestException m) s n).2.1.filter LogEvent.isError =
        [LogEvent.errorLine ("Request error occurred while fetching page: " ++
          (Failure.requestError m).message)] ∧
      (fetch_page base endpoint params
          (NetOutcome.requestException m) s n).2.2 =
        Except.error (Failure.requestError m)) ∧
    (∀ r : Response, 400 ≤ r.status_code ∧ r.status_code ≤ 599 →
      (fetch_page base endpoint params
          (NetOutcome.response r) s n).2.1.filter LogEvent.isError =
        [LogEvent.errorLine ("HTTP error occurred while fetching page: " ++
          (Failure.httpError r.status_code (http_error_msg r)).message)] ∧
      (fetch_page base endpoint params
          (NetOutcome.response r) s n).2.2 =
        Except.error (Failure.httpError r.status_code (http_error_msg r))) := by
  refine ⟨?_, ?_, ?_, ?_, ?_⟩
  · intro m
    exact ⟨rfl, rfl⟩
  · intro r h
    constructor <;> simp [make_request, h, Failure.message, LogEvent.isError]
  · intro r m h hj
    constructor <;>
      simp [make_request, h, hj, Failure.message, List.filter, LogEvent.isError]
  · intro m
    exact ⟨rfl, rfl⟩
  · intro r h
    constructor <;> simp [fetch_page, h, Failure.message, LogEvent.isError]

/-- Claim C5 (witness): a 404 in `_make_request` and a body-parse
failure after a 200 each yield one error line and a propagated
failure. -/
theorem C5_failure_logged_once_witness :
    (make_request "b" "GET" "e" [] none
        (NetOutcome.response
          { status_code := 404, text := "", json := JsonOutcome.raised "x" })
        0 5).2.2 =
      Except.error (Failure.httpError 404 (http_error_msg
        { status_code := 404, text := "", json := JsonOutcome.raised "x" })) ∧
    (make_request "b" "GET" "e" [] none
        (NetOutcome.response
          { status_code := 200, text := "",
            json := JsonOutcome.raised "bad json" })
        0 5).2.1.filter LogEvent.isError =
      [LogEvent.errorLine
        ("Unexpected error: " ++ (Failure.unexpectedError "bad json").message)] := by
  constructor
  · exact ((C5_failure_logged_once "b" "GET" "e" [] none 0 5).2.1
      { status_code := 404, text := "", json := JsonOutcome.raised "x" }
      (by decide)).2
  · exact ((C5_failure_logged_once "b" "GET" "e" [] none 0 5).2.2.1
      { status_code := 200, text := "", json := JsonOutcome.raised "bad json" }
      "bad json" (by decide) rfl).1

/-- Helper: name and elapsed-time fields of the line built by
`log_and_trace`. -/
theorem log_and_trace_fields (name : String) (s n : Nat)
    (resp : Option Response) :
    (log_and_trace name s n resp).method_name = name ∧
    (log_and_trace name s n resp).elapsed_time = n - s := by
  cases resp with
  | none => exact ⟨rfl, rfl⟩
  | some r =>
      simp only [log_and_trace]
      split <;> exact ⟨rfl, rfl⟩

/-- Helper: the status field of the line built by `log_and_trace` is the
status code exactly when the response argument is truthy. -/
theorem log_and_trace_status (name : String) (s n : Nat)
    (resp : Option Response) :
    (log_and_trace name s n resp).status =
      (match resp with
       | some r => if r.ok then some r.status_code else none
       | none => none) := by
  cases resp with
  | none => rfl
  | some r =>
      simp only [log_and_trace]
      split <;> simp_all

/-- Claim C7 (counterexample): calling `log_and_trace` with a supplied
response whose status code is 404 does NOT append the status-code
suffix, because `if response:` tests Python truthiness and
`bool(response)` is `response.ok`, which is false for an error status —
so the claim that the suffix is appended exactly when a response is
supplied is false. -/
theorem C7_counterexample :
    (log_and_trace "op" 0 250
        (some { status_code := 404, text := "",
                json := JsonOutcome.raised "x" })).status = none ∧
    TraceLine.render (log_and_trace "op" 0 250
        (some { status_code := 404, text := "",
                json := JsonOutcome.raised "x" })) =
      "op completed in 2.50s" := by
  constructor <;> rfl

/-- Claim C7 (amended): `log_and_trace` computes elapsed = now − start
and emits one informational line `"{name} completed in {elapsed}s"`,
appending the status-code suffix exactly when the supplied response is
truthy (`response.ok`), not merely supplied; repeated calls with the
same inputs produce lines identical except for the elapsed time, and
the function is total (never raises). -/
theorem C7_record_line (name : String) (s n m : Nat)
    (resp : Option Response) :
    (log_and_trace name s n resp).elapsed_time = n - s ∧
    (log_and_trace name s n resp).method_name = name ∧
    (∀ r, resp = some r → r.ok = true →
      (log_and_trace name s n resp).status = some r.status_code ∧
      TraceLine.render (log_and_trace name s n resp) =
        name ++ " completed in " ++ fmt2 (n - s) ++
          "s with status code " ++ toString r.status_code) ∧
    (∀ r, resp = some r → r.ok = false →
      (log_and_trace name s n resp).status = none ∧
      TraceLine.render (log_and_trace name s n resp) =
        name ++ " completed in " ++ fmt2 (n - s) ++ "s") ∧
    (resp = none →
      (log_and_trace name s n resp).status = none ∧
      TraceLine.render (log_and_trace name s n resp) =
        name ++ " completed in " ++ fmt2 (n - s) ++ "s") ∧
    (log_and_trace name s m resp).method_name =
      (log_and_trace name s n resp).method_name ∧
    (log_and_trace name s m resp).status =
      (log_and_trace name s n resp).status := by
  refine ⟨(log_and_trace_fields name s n resp).2,
    (log_and_trace_fields name s n resp).1, ?_, ?_, ?_, ?_, ?_⟩
  · intro r hr hok
    subst hr
    constructor
    · simp [log_and_trace, hok]
    · simp [log_and_trace, hok, TraceLine.render]
  · intro r hr hok
    subst hr
    constructor
    · simp [log_and_trace, hok]
    · simp [log_and_trace, hok, TraceLine.render]
  · intro hr
    subst hr
    exact ⟨rfl, rfl⟩
  · exact (log_and_trace_fields name s m resp).1.trans
      ((log_and_trace_fields name s n resp).1).symm
  · rw [log_and_trace_status, log_and_trace_status]

/-- Claim C7 (witness): a truthy 200 response gets the status suffix. -/
theorem C7_record_line_witness :
    (log_and_trace "op" 0 150
        (some { status_code := 200, text := "",
                json := JsonOutcome.ok [] })).status = some 200 ∧
    TraceLine.render (log_and_trace "op" 0 150
        (some { status_code := 200, text := "",
                json := JsonOutcome.ok [] })) =
      "op" ++ " completed in " ++ fmt2 (150 - 0) ++
        "s with status code " ++ toString 200 :=
  (C7_record_line "op" 0 150 7
      (some { status_code := 200, text := "", json := JsonOutcome.ok [] })).2.2.1
    { status_code := 200, text := "", json := JsonOutcome.ok [] }
    rfl (by decide)

/-- Claim C10: when the status passes validation but the body is not
valid structured data, the instrumentation event — with the success
format and the status code — is recorded first, and only then is the
parse failure logged as an error line and propagated. -/
theorem C10_trace_before_parse (base method endpoint : String)
    (params : List (String × String)) (data : Option (List (String × String)))
    (s n : Nat) (r : Response) (m : String)
    (h2 : 200 ≤ r.status_code) (h3 : r.status_code ≤ 399)
    (hj : r.json = JsonOutcome.raised m) :
    (make_request base method endpoint params data
        (NetOutcome.response r) s n).2.1 =
      [LogEvent.traceLine
        { method_name := "_make_request", elapsed_time := n - s,
          status := some r.status_code },
       LogEvent.errorLine ("Unexpected error: " ++ m)] ∧
    (make_request base method endpoint params data
        (NetOutcome.response r) s n).2.2 =
      Except.error (Failure.unexpectedError m) := by
  have hrange : ¬(400 ≤ r.status_code ∧ r.status_code ≤ 599) := by omega
  have hok : r.ok = true := by
    simp only [Response.ok, Bool.not_eq_true', decide_eq_false_iff_not]
    exact hrange
  constructor
  · simp [make_request, hrange, hj, log_and_trace, hok]
  · simp [make_request, hrange, hj]

/-- Claim C10 (witness): a 200 response with an unparseable body. -/
theorem C10_trace_before_parse_witness :
    (make_request "b" "GET" "e" [] none
        (NetOutcome.response
          { status_code := 200, text := "not json",
            json := JsonOutcome.raised "Expecting value" })
        0 30).2.1 =
      [LogEvent.traceLine
        { method_name := "_make_request", elapsed_time := 30 - 0,
          status := some 200 },
       LogEvent.errorLine ("Unexpected error: " ++ "Expecting value")] ∧
    (make_request "b" "GET" "e" [] none
        (NetOutcome.response
          { status_code := 200, text := "not json",
            json := JsonOutcome.raised "Expecting value" })
        0 30).2.2 =
      Except.error (Failure.unexpectedError "Expecting value") :=
  C10_trace_before_parse "b" "GET" "e" [] none 0 30
    { status_code := 200, text := "not json",
      json := JsonOutcome.raised "Expecting value" }
    "Expecting value" (by decide) (by decide) rfl
